import Mathlib

/-!
Verification of the DarkHelp Python binding (src-python/DarkHelp.py and
src-python/example.py) against its natural-language specification.

The repository files under scrutiny are pure ctypes glue: they declare the
argument and return types of the native DarkHelp entry points and the
module-level library loading logic.  Those declarations are embedded below
literally as data (lists of C types).  The detection pipeline itself
(tile planner, merge/snap engine, result store) lives in the C++ part of
the DarkHelp repository which is not among the provided sources; where a
claim depends on that behaviour, the definition is modelled from the
specification text and its doc comment says so.
-/

/-- The ctypes scalar and pointer types that appear in the binding
declarations of src-python/DarkHelp.py. -/
inductive CType where
  | voidp  -- c_void_p
  | charp  -- c_char_p
  | int    -- c_int
  | float  -- c_float
  | double -- c_double
  | bool   -- c_bool
  deriving DecidableEq, Repr

/-- From DarkHelp.py line 76: PredictFN.argtypes = [c_void_p, c_char_p]. -/
def PredictFN_argtypes : List CType := [CType.voidp, CType.charp]

/-- From DarkHelp.py line 77: PredictFN.restype = c_int. -/
def PredictFN_restype : CType := CType.int

/-- From DarkHelp.py line 86:
Predict.argtypes = [c_void_p, c_int, c_int, c_char_p, c_int]. -/
def Predict_argtypes : List CType :=
  [CType.voidp, CType.int, CType.int, CType.charp, CType.int]

/-- From DarkHelp.py line 87: Predict.restype = c_int. -/
def Predict_restype : CType := CType.int

/-- From DarkHelp.py line 58:
CreateDarkHelpNN.argtypes = (c_char_p, c_char_p, c_char_p). -/
def CreateDarkHelpNN_argtypes : List CType :=
  [CType.charp, CType.charp, CType.charp]

/-- From DarkHelp.py line 59: CreateDarkHelpNN.restype = c_void_p, a
nullable pointer: the only failure signal is a null handle. -/
def CreateDarkHelpNN_restype : CType := CType.voidp

/-- From DarkHelp.py line 93: GetPredictionResults.argtypes = [c_void_p]. -/
def GetPredictionResults_argtypes : List CType := [CType.voidp]

/-- From DarkHelp.py line 94: GetPredictionResults.restype = c_char_p. -/
def GetPredictionResults_restype : CType := CType.charp

/-- The roles the specification assigns to the parameters of the two
inference entry points. -/
inductive ParamRole where
  | handle
  | imagePath
  | rawPixels
  | width
  | height
  | channels
  deriving DecidableEq, Repr

/-- The ctypes type each parameter role is marshalled as: the session
handle is a void pointer, paths and raw pixel buffers are char pointers,
and the three scalar dimensions are C ints. -/
def ctypeOfRole : ParamRole → CType
  | ParamRole.handle => CType.voidp
  | ParamRole.imagePath => CType.charp
  | ParamRole.rawPixels => CType.charp
  | ParamRole.width => CType.int
  | ParamRole.height => CType.int
  | ParamRole.channels => CType.int

/-- The parameter order the specification claims for the raw-pixel
inference variant: session handle, raw_pixels, width, height, channels. -/
def claimedRawPixelOrder : List ParamRole :=
  [ParamRole.handle, ParamRole.rawPixels, ParamRole.width,
   ParamRole.height, ParamRole.channels]

/-- The parameter order actually declared for Predict in DarkHelp.py:
session handle, width, height, raw_pixels, channels. -/
def actualRawPixelOrder : List ParamRole :=
  [ParamRole.handle, ParamRole.width, ParamRole.height,
   ParamRole.rawPixels, ParamRole.channels]

/-- The parameter order of the file-based inference variant PredictFN:
session handle then image path. -/
def filePredictOrder : List ParamRole :=
  [ParamRole.handle, ParamRole.imagePath]

/-- One Config setter declaration of the binding: its exported name, the
ctypes type of the value being set (second argument, after the handle),
and the declared return type. -/
structure SetterSig where
  name : String
  valType : CType
  retType : CType
  deriving DecidableEq, Repr

/-- Every scalar Config setter declared in src-python/DarkHelp.py
(lines 110 to 297), transcribed in source order with the ctypes type of
its value argument and its declared restype. -/
def configSetters : List SetterSig :=
  [ { name := "SetThreshold", valType := CType.float, retType := CType.float },
    { name := "SetNonMaximalSuppression", valType := CType.float, retType := CType.float },
    { name := "EnableNamesIncludePercentage", valType := CType.bool, retType := CType.bool },
    { name := "EnableAnnotationAutoHideLabels", valType := CType.bool, retType := CType.bool },
    { name := "EnableAnnotationSuppressAllLabels", valType := CType.bool, retType := CType.bool },
    { name := "SetAnnotationShadePredictions", valType := CType.float, retType := CType.float },
    { name := "EnableIncludeAllNames", valType := CType.bool, retType := CType.bool },
    { name := "SetAnnotationFontScale", valType := CType.double, retType := CType.double },
    { name := "SetAnnotationFontThickness", valType := CType.int, retType := CType.int },
    { name := "SetAnnotationLineThickness", valType := CType.int, retType := CType.int },
    { name := "EnableAnnotationIncludeDuration", valType := CType.bool, retType := CType.bool },
    { name := "EnableAnnotationIncludeTimestamp", valType := CType.bool, retType := CType.bool },
    { name := "EnableAnnotationPixelate", valType := CType.bool, retType := CType.bool },
    { name := "SetAnnotationPixelateSize", valType := CType.int, retType := CType.int },
    { name := "EnableTiles", valType := CType.bool, retType := CType.bool },
    { name := "EnableCombineTilePredictions", valType := CType.bool, retType := CType.bool },
    { name := "EnableOnlyCombineSimilarPredictions", valType := CType.bool, retType := CType.bool },
    { name := "SetTileEdgeFactor", valType := CType.float, retType := CType.float },
    { name := "SetTileRectFactor", valType := CType.float, retType := CType.float },
    { name := "EnableSnapping", valType := CType.bool, retType := CType.bool },
    { name := "SetBinaryThresholdBlockSize", valType := CType.int, retType := CType.int },
    { name := "SetBinaryThresholdConstant", valType := CType.double, retType := CType.double },
    { name := "SetSnappingHorizontalTolerance", valType := CType.int, retType := CType.int },
    { name := "SetSnappingVerticalTolerance", valType := CType.int, retType := CType.int },
    { name := "SetSnappingLimitShrink", valType := CType.float, retType := CType.float },
    { name := "SetSnappingLimitGrow", valType := CType.float, retType := CType.float },
    { name := "EnableUseFastImageResize", valType := CType.bool, retType := CType.bool } ]

/-- Modelled from the spec: the native setter bodies are not among the
provided sources; per section 6 of the spec each setter stores the new
value into the session Config and returns a value of the field type as
confirmation.  This generic model setter returns the previous value. -/
def modelSetField (store : String → Rat) (field : String) (v : Rat) :
    Rat × (String → Rat) :=
  (store field, fun f => if f = field then v else store f)

/-- The operating systems distinguished by the module-level dispatch at
the top of DarkHelp.py: os.name is "posix", "nt", or something else. -/
inductive OSKind where
  | posix
  | nt
  | other
  deriving DecidableEq, Repr

/-- Possible outcomes of importing the binding module: the CDLL load ran
with a bound libpath, or the load raised a NameError because libpath was
never bound, or the module terminated before reaching the load. -/
inductive LoadOutcome where
  | loaded (libpath : String)
  | nameError
  | exited
  deriving DecidableEq, Repr

/-- Embedding of DarkHelp.py lines 14 to 21.  The if/elif branches bind
libpath; the else branch prints "unknown OS" and then evaluates the bare
name exit, which in Python is an expression statement referencing the
builtin without calling it: it neither terminates the process nor binds
libpath.  Control then reaches the CDLL call, which evaluates the name
libpath: unbound on the else path, so a NameError is raised.  The result
pairs the lines printed with the outcome of the load. -/
def moduleInit (os : OSKind) : List String × LoadOutcome :=
  match os with
  | OSKind.posix => ([], LoadOutcome.loaded "/usr/lib/libdarkhelp.so")
  | OSKind.nt => ([], LoadOutcome.loaded "C:/Program Files/darknet/bin/darkhelp.dll")
  | OSKind.other => (["unknown OS"], LoadOutcome.nameError)

/-- Whether path p ends with the extension ext, computed structurally on
the character lists so that it evaluates inside the kernel. -/
def pathEndsWith (p ext : String) : Bool :=
  ext.data.isSuffixOf p.data

/-- Modelled from the spec: role detection by file extension.  The
native loader body (DarkHelp::verify_cfg_and_weights) is not among the
provided sources; per the spec, each of the three paths passed to create
is assigned its role from its extension, independently of order.  A path
is picked for an extension exactly when it is the unique path of the
triple carrying that extension. -/
def pickByExt (ext : String) (paths : List String) : Option String :=
  match paths.filter (fun p => pathEndsWith p ext) with
  | [p] => some p
  | _ => none

/-- The role assignment produced by extension detection: which path is
the configuration file, the names file, and the weights file. -/
structure RoleAssignment where
  cfgFile : String
  namesFile : String
  weightsFile : String
  deriving DecidableEq, Repr

/-- Modelled from the spec: assign the three file roles from the
extensions .cfg, .names and .weights, in whatever order the paths were
given; fails (none) when a role cannot be resolved uniquely. -/
def assignRoles (p1 p2 p3 : String) : Option RoleAssignment :=
  match pickByExt ".cfg" [p1, p2, p3], pickByExt ".names" [p1, p2, p3],
        pickByExt ".weights" [p1, p2, p3] with
  | some c, some n, some w => some { cfgFile := c, namesFile := n, weightsFile := w }
  | _, _, _ => none

/-- Modelled from the spec: session creation.  The native construction
of the network is abstracted by the loadOk predicate (missing files,
malformed models).  Every failure path yields none, the model of the
null handle: no other failure signal exists, matching the c_void_p
restype declared in the binding. -/
def createDarkHelpNN (loadOk : RoleAssignment → Bool) (p1 p2 p3 : String) :
    Option RoleAssignment :=
  match assignRoles p1 p2 p3 with
  | none => none
  | some r => if loadOk r then some r else none

/-- Modelled from the spec, section 3: one detection of the
PredictionSet.  The rectangle is x, y, width, height in full-image
coordinates (rationals stand in for the pixel and subpixel values), the
per-class probability mapping is a list indexed by class id, plus the
best class id, the display label, and the originating tile index (none
when the detection is not attributable to one tile). -/
structure Det where
  x : Rat
  y : Rat
  w : Rat
  h : Rat
  probs : List Rat
  bestClass : Nat
  label : String
  tile : Option Nat
  deriving DecidableEq, Repr

/-- The confidence of a detection: the largest entry of its per-class
probability vector (zero when the vector is empty). -/
def bestConf (d : Det) : Rat :=
  d.probs.foldr max 0

/-- Modelled from the spec: serialized rectangle field. -/
def rectField (d : Det) : String :=
  "rect=" ++ toString d.x ++ "," ++ toString d.y ++ ","
    ++ toString d.w ++ "," ++ toString d.h ++ ";"

/-- Modelled from the spec: serialized class id field. -/
def classField (d : Det) : String :=
  "class=" ++ toString d.bestClass ++ ";"

/-- Modelled from the spec: serialized label field. -/
def labelField (d : Det) : String :=
  "label=" ++ d.label ++ ";"

/-- Modelled from the spec: serialized confidence field. -/
def confField (d : Det) : String :=
  "conf=" ++ toString (bestConf d) ++ ";"

/-- Modelled from the spec: serialized per-class probabilities field. -/
def probsField (d : Det) : String :=
  "probs=" ++ String.intercalate "," (d.probs.map toString)

/-- Modelled from the spec: serialize one detection to structured text
with the stable field order rectangle, class id, label, confidence,
per-class probabilities (the Result Store contract of section 4.5). -/
def serializeDetection (d : Det) : String :=
  rectField d ++ classField d ++ labelField d ++ confField d ++ probsField d

/-- Modelled from the spec: serialize a whole PredictionSet, one
detection per line. -/
def serializePredictionSet (ds : List Det) : String :=
  String.intercalate "\n" (ds.map serializeDetection)

/-- Modelled from the spec, section 3: the session state the claims
need, namely the detection threshold of the Config and the stored
PredictionSet of the Result Store. -/
structure Session where
  threshold : Rat
  results : List Det
  deriving DecidableEq, Repr

/-- Modelled from the spec: get_results takes only the session and
returns the stored PredictionSet serialized as structured text. -/
def getResults (s : Session) : String :=
  serializePredictionSet s.results

/-- Modelled from the spec, section 7: the inference error kinds that
fail a single call. -/
inductive InferError where
  | corruptImage
  | unreadableFile
  deriving DecidableEq, Repr

/-- Modelled from the spec: how one inference call updates the session.
A failed call leaves the session untouched; a successful call replaces
the stored PredictionSet wholesale with the new detections. -/
def applyInference (s : Session) (outcome : Except InferError (List Det)) :
    Session :=
  match outcome with
  | Except.error _ => s
  | Except.ok dets => { s with results := dets }

/-- Modelled from the spec, section 4.2: detections whose confidence is
below the threshold cutoff are excluded. -/
def applyThreshold (t : Rat) (dets : List Det) : List Det :=
  dets.filter (fun d => decide (t ≤ bestConf d))

/-- Modelled from the spec: one inference call.  The image decode and
network forward pass are abstracted as an optional list of raw
detections: none models a corrupt or unreadable image and fails the
call; an image that decoded produces a successful call whose result is
the raw detections filtered by the threshold, even when that filter
leaves nothing. -/
def runInference (decoded : Option (List Det)) (t : Rat) :
    Except InferError (List Det) :=
  match decoded with
  | none => Except.error InferError.corruptImage
  | some raw => Except.ok (applyThreshold t raw)

/-- A tile rectangle of the Tile Planner, in whole pixels. -/
structure TileRect where
  x : Nat
  y : Nat
  w : Nat
  h : Nat
  deriving DecidableEq, Repr

/-- Modelled from the spec, section 4.1: the tile grid has enough
columns and rows that every tile fits the network input size; each tile
is clipped to the image.  The overlap margins between adjacent tiles do
not affect the degenerate single-tile case the claims are about and are
omitted. -/
def tileGrid (imgW imgH netW netH : Nat) : List TileRect :=
  (List.range ((imgH + netH - 1) / netH)).flatMap (fun r =>
    (List.range ((imgW + netW - 1) / netW)).map (fun c =>
      { x := c * netW, y := r * netH,
        w := min netW (imgW - c * netW), h := min netH (imgH - r * netH) }))

/-- Modelled from the spec, section 4.1: with tiling disabled the
planner emits exactly one tile equal to the whole image; with tiling
enabled it emits the grid. -/
def tilePlan (enabled : Bool) (imgW imgH netW netH : Nat) : List TileRect :=
  if enabled then tileGrid imgW imgH netW netH
  else [{ x := 0, y := 0, w := imgW, h := imgH }]

/-- Modelled from the spec, section 4.4 step 5: the new position of one
box edge is the average of that edge and every neighbouring edge within
the tolerance; with no neighbour in range the edge stays put. -/
def snapEdgeAvg (tol mine : Rat) (others : List Rat) : Rat :=
  match others.filter (fun o => decide (mine - tol ≤ o) && decide (o ≤ mine + tol)) with
  | [] => mine
  | near => (mine + near.sum) / (1 + (near.length : Rat))

/-- Modelled from the spec: the snap candidate for a detection, each of
its four edges moved to the average of the nearby edges of the other
detections. -/
def snapCandidate (tolH tolV : Rat) (others : List Det) (d : Det) : Det :=
  { d with
    x := snapEdgeAvg tolH d.x (others.map (fun o => o.x)),
    y := snapEdgeAvg tolV d.y (others.map (fun o => o.y)),
    w := snapEdgeAvg tolH (d.x + d.w) (others.map (fun o => o.x + o.w))
      - snapEdgeAvg tolH d.x (others.map (fun o => o.x)),
    h := snapEdgeAvg tolV (d.y + d.h) (others.map (fun o => o.y + o.h))
      - snapEdgeAvg tolV d.y (others.map (fun o => o.y)) }

/-- Modelled from the spec, section 4.4 step 5: the snap candidate is
applied only when the resulting area stays within the relative
snapping_limit_shrink and snapping_limit_grow bounds; otherwise the
snap is rejected and the original box kept. -/
def snapDetection (shrink grow tolH tolV : Rat) (others : List Det)
    (d : Det) : Det :=
  if shrink * (d.w * d.h) ≤ (snapCandidate tolH tolV others d).w * (snapCandidate tolH tolV others d).h ∧
     (snapCandidate tolH tolV others d).w * (snapCandidate tolH tolV others d).h ≤ grow * (d.w * d.h)
  then snapCandidate tolH tolV others d
  else d

/-- A concrete detection whose confidence is zero, used to instantiate
the below-threshold scenario. -/
def lowConfDet : Det :=
  { x := 0, y := 0, w := 1, h := 1, probs := [0], bestClass := 0,
    label := "obj", tile := none }

/-- Whether two detection rectangles overlap with positive intersection
area, the IoU greater than zero test of spec section 4.4 step 1. -/
def overlaps (a b : Det) : Bool :=
  decide (a.x < b.x + b.w) && decide (b.x < a.x + a.w) &&
  decide (a.y < b.y + b.h) && decide (b.y < a.y + a.h)

/-- Modelled from the spec, section 4.4 steps 1 to 3: two detections
form a qualifying merge pair when both carry an originating tile
marker, the tiles differ, the rectangles overlap, and, when
only_combine_similar_predictions is set, the best class ids match.
Detections whose tile marker is cleared never qualify. -/
def qualifies (similarOnly : Bool) (a b : Det) : Bool :=
  match a.tile, b.tile with
  | some ta, some tb =>
      decide (ta ≠ tb) && overlaps a b &&
      (!similarOnly || decide (a.bestClass = b.bestClass))
  | _, _ => false

/-- Element-wise maximum of two class-probability vectors. -/
def vmax : List Rat → List Rat → List Rat
  | [], ys => ys
  | x :: xs, [] => x :: xs
  | x :: xs, y :: ys => max x y :: vmax xs ys

/-- Index of the largest entry of a probability vector: the running
best index and value, advanced over the remaining entries. -/
def idxOfMaxAux : List Rat → Nat → Nat → Rat → Nat
  | [], _, best, _ => best
  | v :: vs, i, best, bv =>
      if bv < v then idxOfMaxAux vs (i + 1) i v
      else idxOfMaxAux vs (i + 1) best bv

/-- Index of the largest entry of a probability vector (zero when the
vector is empty). -/
def idxOfMax : List Rat → Nat
  | [] => 0
  | v :: vs => idxOfMaxAux vs 1 0 v

/-- Modelled from the spec, section 4.4 step 4: merging two detections
produces the bounding-box union of the rectangles, the element-wise
maximum of the class-probability vectors with the best class recomputed
from it, and a cleared originating-tile marker. -/
def merge2 (a b : Det) : Det :=
  { x := min a.x b.x,
    y := min a.y b.y,
    w := max (a.x + a.w) (b.x + b.w) - min a.x b.x,
    h := max (a.y + a.h) (b.y + b.h) - min a.y b.y,
    probs := vmax a.probs b.probs,
    bestClass := idxOfMax (vmax a.probs b.probs),
    label := a.label,
    tile := none }

/-- Whether detection d links to some member of the group g through the
qualifying relation, in either direction. -/
def linksWith (q : Det → Det → Bool) (d : Det) (g : List Det) : Bool :=
  g.any (fun e => q d e || q e d)

/-- Concatenation of the lists produced by f, used instead of the
library join so that every proof ingredient stays structural. -/
def concatMap (f : α → List β) : List α → List β
  | [] => []
  | x :: xs => f x ++ concatMap f xs

/-- One step of connected-component grouping: the groups the new
detection links with are fused with it into a single group, appended
after the untouched groups. -/
def addToGroups (q : Det → Det → Bool) (gs : List (List Det)) (d : Det) :
    List (List Det) :=
  gs.filter (fun g => !(linksWith q d g)) ++
    [concatMap (fun g => g) (gs.filter (fun g => linksWith q d g)) ++ [d]]

/-- Modelled from the spec, section 4.4: the connected components of the
qualifying relation over the detections; merging is transitive, so a
chain of qualifying pairs collapses into one group. -/
def groupComponents (q : Det → Det → Bool) (dets : List Det) :
    List (List Det) :=
  dets.foldl (addToGroups q) []

/-- Collapse one component: a single detection passes through
unchanged, a larger component is folded into one merged detection. -/
def mergeGroup : List Det → List Det
  | [] => []
  | [d] => [d]
  | d :: e :: rest => [(e :: rest).foldl merge2 d]

/-- Modelled from the spec, section 4.4 steps 1 to 4: the merge phase of
the Merge/Snap Engine.  With combine_tile_predictions disabled the
detections pass through untouched; with it enabled every connected
component of the qualifying relation collapses into one merged
detection. -/
def mergeAll (combine similarOnly : Bool) (dets : List Det) : List Det :=
  if combine then
    concatMap mergeGroup (groupComponents (qualifies similarOnly) dets)
  else dets

/-- No qualifying link in either direction between any member of g1 and
any member of g2. -/
def noCross (q : Det → Det → Bool) (g1 g2 : List Det) : Prop :=
  ∀ a ∈ g1, ∀ b ∈ g2, q a b = false ∧ q b a = false

/-- Claim C1: the file-based inference variant takes a session handle and
an image path and returns an integer detection count, and the raw-pixel
variant takes a session handle followed by raw_pixels, width, height,
channels in that order.  This is false in the source: Predict declares
its arguments as handle, width, height, raw_pixels, channels, so the
ctypes sequence implied by the claimed order differs from the declared
argtypes at positions 1 through 3. -/
theorem C1_raw_pixel_order_counterexample :
    claimedRawPixelOrder.map ctypeOfRole ≠ Predict_argtypes := by
  decide

/-- Claim C1 (amended): the file-based variant takes a session handle and
an image path and returns an integer count, and the raw-pixel variant
takes a session handle followed by width, height, raw_pixels, channels,
in that order, and returns an integer count. -/
theorem C1_predict_signatures :
    filePredictOrder.map ctypeOfRole = PredictFN_argtypes ∧
    PredictFN_restype = CType.int ∧
    actualRawPixelOrder.map ctypeOfRole = Predict_argtypes ∧
    Predict_restype = CType.int := by
  decide

/-- Claim C3: every scalar Config setter exposed at the boundary is
declared to take, after the session handle, exactly one value and to
return a value of the same ctypes type as the value being set; the
modelled setter body returns the previous value of the field and stores
the new one. -/
theorem C3_setters_return_set_type :
    (configSetters.all fun s => s.valType == s.retType) = true ∧
    (∀ store field v,
      (modelSetField store field v).1 = store field ∧
      ((modelSetField store field v).2) field = v) := by
  constructor
  · decide
  · intro store field v
    constructor
    · rfl
    · simp [modelSetField]

theorem pickByExt_swap12 (ext a b c : String) :
    pickByExt ext [a, b, c] = pickByExt ext [b, a, c] := by
  unfold pickByExt
  cases h1 : pathEndsWith a ext <;> cases h2 : pathEndsWith b ext <;>
    cases h3 : pathEndsWith c ext <;> simp [List.filter, h1, h2, h3]

theorem pickByExt_rot (ext a b c : String) :
    pickByExt ext [a, b, c] = pickByExt ext [b, c, a] := by
  unfold pickByExt
  cases h1 : pathEndsWith a ext <;> cases h2 : pathEndsWith b ext <;>
    cases h3 : pathEndsWith c ext <;> simp [List.filter, h1, h2, h3]

theorem pickByExt_endsWith (ext p : String) (l : List String)
    (h : pickByExt ext l = some p) : pathEndsWith p ext = true := by
  unfold pickByExt at h
  cases hf : l.filter (fun s => pathEndsWith s ext) with
  | nil => rw [hf] at h; cases h
  | cons x xs =>
    cases xs with
    | nil =>
      rw [hf] at h
      have hx : x ∈ l.filter (fun s => pathEndsWith s ext) := by
        rw [hf]; exact List.mem_singleton.mpr rfl
      have hpx : x = p := by cases h; rfl
      rw [← hpx]
      exact (List.mem_filter.mp hx).2
    | cons y ys => rw [hf] at h; cases h

theorem assignRoles_swap12 (a b c : String) :
    assignRoles a b c = assignRoles b a c := by
  unfold assignRoles
  rw [pickByExt_swap12 ".cfg" a b c, pickByExt_swap12 ".names" a b c,
      pickByExt_swap12 ".weights" a b c]

theorem assignRoles_rot (a b c : String) :
    assignRoles a b c = assignRoles b c a := by
  unfold assignRoles
  rw [pickByExt_rot ".cfg" a b c, pickByExt_rot ".names" a b c,
      pickByExt_rot ".weights" a b c]

theorem createDarkHelpNN_swap12 (lo : RoleAssignment → Bool) (a b c : String) :
    createDarkHelpNN lo a b c = createDarkHelpNN lo b a c := by
  unfold createDarkHelpNN
  rw [assignRoles_swap12]

theorem createDarkHelpNN_rot (lo : RoleAssignment → Bool) (a b c : String) :
    createDarkHelpNN lo a b c = createDarkHelpNN lo b c a := by
  unfold createDarkHelpNN
  rw [assignRoles_rot]

/-- Claim C2: session creation takes the three model file paths in any
order, auto-detects each file role from its extension, and signals
failure only through a null handle.  Stated as: the binding declares
three string arguments and a nullable pointer result; the modelled
create is invariant under all permutations of its three path arguments;
whenever it returns a handle, each file was assigned the role matching
its extension; and its only outcomes are a handle or none. -/
theorem C2_create_order_independent (lo : RoleAssignment → Bool)
    (p1 p2 p3 : String) :
    (CreateDarkHelpNN_argtypes = [CType.charp, CType.charp, CType.charp] ∧
     CreateDarkHelpNN_restype = CType.voidp) ∧
    (createDarkHelpNN lo p1 p2 p3 = createDarkHelpNN lo p2 p1 p3 ∧
     createDarkHelpNN lo p1 p2 p3 = createDarkHelpNN lo p2 p3 p1 ∧
     createDarkHelpNN lo p1 p2 p3 = createDarkHelpNN lo p3 p1 p2 ∧
     createDarkHelpNN lo p1 p2 p3 = createDarkHelpNN lo p1 p3 p2 ∧
     createDarkHelpNN lo p1 p2 p3 = createDarkHelpNN lo p3 p2 p1) ∧
    (∀ r, createDarkHelpNN lo p1 p2 p3 = some r →
      pathEndsWith r.cfgFile ".cfg" = true ∧
      pathEndsWith r.namesFile ".names" = true ∧
      pathEndsWith r.weightsFile ".weights" = true) ∧
    ((∃ r, createDarkHelpNN lo p1 p2 p3 = some r) ∨
      createDarkHelpNN lo p1 p2 p3 = none) := by
  refine ⟨⟨rfl, rfl⟩, ⟨?_, ?_, ?_, ?_, ?_⟩, ?_, ?_⟩
  · exact createDarkHelpNN_swap12 lo p1 p2 p3
  · exact createDarkHelpNN_rot lo p1 p2 p3
  · exact (createDarkHelpNN_rot lo p1 p2 p3).trans (createDarkHelpNN_rot lo p2 p3 p1)
  · exact ((createDarkHelpNN_rot lo p1 p2 p3).trans
      (createDarkHelpNN_rot lo p2 p3 p1)).trans (createDarkHelpNN_swap12 lo p3 p1 p2)
  · exact (createDarkHelpNN_rot lo p1 p2 p3).trans (createDarkHelpNN_swap12 lo p2 p3 p1)
  · intro r hr
    unfold createDarkHelpNN at hr
    rcases ha : assignRoles p1 p2 p3 with _ | r2 <;> rw [ha] at hr
    · cases hr
    · cases hlo : lo r2 <;> simp [hlo] at hr
      unfold assignRoles at ha
      rcases hc : pickByExt ".cfg" [p1, p2, p3] with _ | cf <;> rw [hc] at ha
      · cases ha
      rcases hn : pickByExt ".names" [p1, p2, p3] with _ | nf <;> rw [hn] at ha
      · cases ha
      rcases hw : pickByExt ".weights" [p1, p2, p3] with _ | wf <;> rw [hw] at ha
      · cases ha
      cases ha
      rw [← hr]
      exact ⟨pickByExt_endsWith _ _ _ hc, pickByExt_endsWith _ _ _ hn,
             pickByExt_endsWith _ _ _ hw⟩
  · rcases h : createDarkHelpNN lo p1 p2 p3 with _ | r
    · exact Or.inr rfl
    · exact Or.inl ⟨r, rfl⟩

/-- Witness for claim C2 at a concrete triple: with paths given in the
order weights, cfg, names, role detection still assigns each file the
role matching its extension. -/
theorem C2_create_order_independent_witness :
    pathEndsWith "yolo.cfg" ".cfg" = true ∧
    pathEndsWith "yolo.names" ".names" = true ∧
    pathEndsWith "yolo.weights" ".weights" = true :=
  (C2_create_order_independent (fun _ => true)
      "yolo.weights" "yolo.cfg" "yolo.names").2.2.1
    { cfgFile := "yolo.cfg", namesFile := "yolo.names",
      weightsFile := "yolo.weights" }
    (by decide)

/-- Claim C10: importing the binding module on an operating system that
is neither posix nor nt prints "unknown OS" but does not terminate,
because the bare name exit is never called; libpath stays unbound and
the subsequent CDLL load fails with a NameError instead of a clean
exit. -/
theorem C10_unknown_os_name_error :
    moduleInit OSKind.other = (["unknown OS"], LoadOutcome.nameError) ∧
    (∀ os, (moduleInit os).2 ≠ LoadOutcome.exited) := by
  constructor
  · rfl
  · intro os
    cases os <;> simp [moduleInit]

/-- Claim C5: for every detection and every configuration of the
snapping shrink and grow limits, the snapping step either keeps the
resulting box area within the relative bounds shrink times the original
area and grow times the original area, or rejects the snap and leaves
the detection unchanged. -/
theorem C5_snapping_respects_size_limits (shrink grow tolH tolV : Rat)
    (others : List Det) (d : Det) :
    (shrink * (d.w * d.h) ≤
        (snapDetection shrink grow tolH tolV others d).w *
        (snapDetection shrink grow tolH tolV others d).h ∧
      (snapDetection shrink grow tolH tolV others d).w *
        (snapDetection shrink grow tolH tolV others d).h ≤
        grow * (d.w * d.h)) ∨
    snapDetection shrink grow tolH tolV others d = d := by
  unfold snapDetection
  by_cases hcond : shrink * (d.w * d.h) ≤
      (snapCandidate tolH tolV others d).w *
      (snapCandidate tolH tolV others d).h ∧
      (snapCandidate tolH tolV others d).w *
      (snapCandidate tolH tolV others d).h ≤ grow * (d.w * d.h)
  · rw [if_pos hcond]
    exact Or.inl hcond
  · rw [if_neg hcond]
    exact Or.inr rfl

/-- Claim C6: get_results takes only the session handle (one c_void_p
argument, c_char_p result, per the binding declaration) and returns the
stored PredictionSet serialized as structured text whose field order is
rectangle, class id, label, confidence, per-class probabilities. -/
theorem C6_get_results_serialization :
    GetPredictionResults_argtypes = [CType.voidp] ∧
    GetPredictionResults_restype = CType.charp ∧
    (∀ s, getResults s = serializePredictionSet s.results) ∧
    (∀ d, serializeDetection d =
      rectField d ++ classField d ++ labelField d ++ confField d ++ probsField d) :=
  ⟨rfl, rfl, fun _ => rfl, fun _ => rfl⟩

/-- Claim C7: a failed inference call leaves the whole session, and in
particular the stored PredictionSet, unchanged; a successful call
replaces the stored PredictionSet with exactly the new detections,
independently of whatever was stored before. -/
theorem C7_inference_isolation :
    (∀ s e, applyInference s (Except.error e) = s) ∧
    (∀ s dets, (applyInference s (Except.ok dets)).results = dets) ∧
    (∀ s1 s2 dets, (applyInference s1 (Except.ok dets)).results =
      (applyInference s2 (Except.ok dets)).results) :=
  ⟨fun _ _ => rfl, fun _ _ => rfl, fun _ _ _ => rfl⟩

/-- Claim C8: when every raw detection of a decoded image has
confidence below the threshold, the inference call succeeds with an
empty PredictionSet instead of failing. -/
theorem C8_below_threshold_empty_not_error (t : Rat) (raw : List Det)
    (hall : ∀ d ∈ raw, bestConf d < t) :
    runInference (some raw) t = Except.ok [] := by
  have hfe : applyThreshold t raw = [] := by
    unfold applyThreshold
    rw [List.filter_eq_nil_iff]
    intro d hd
    simp only [decide_eq_true_eq]
    exact not_le.mpr (hall d hd)
  show Except.ok (applyThreshold t raw) = Except.ok []
  rw [hfe]

/-- Witness for claim C8: a single detection of confidence zero under
threshold one produces a successful call with an empty result. -/
theorem C8_below_threshold_empty_not_error_witness :
    runInference (some [lowConfDet]) 1 = Except.ok [] :=
  C8_below_threshold_empty_not_error 1 [lowConfDet] (by decide)

/-- Claim C9: for every image with positive dimensions both smaller
than the network input size, the Tile Planner produces exactly one tile
equal to the whole image, whether tiling is enabled or not. -/
theorem C9_small_image_single_tile (enabled : Bool) (w h nw nh : Nat)
    (hw0 : 0 < w) (hwn : w < nw) (hh0 : 0 < h) (hhn : h < nh) :
    tilePlan enabled w h nw nh = [{ x := 0, y := 0, w := w, h := h }] := by
  cases enabled
  · rfl
  · have hc : (w + nw - 1) / nw = 1 :=
      Nat.div_eq_of_lt_le (by omega) (by omega)
    have hr : (h + nh - 1) / nh = 1 :=
      Nat.div_eq_of_lt_le (by omega) (by omega)
    show tileGrid w h nw nh = _
    unfold tileGrid
    rw [hc, hr]
    simp [List.range_succ, List.range_zero, Nat.min_eq_right (Nat.le_of_lt hwn),
          Nat.min_eq_right (Nat.le_of_lt hhn)]

/-- Witness for claim C9: a 100 by 80 image under a 416 by 416 network
input yields the single whole-image tile. -/
theorem C9_small_image_single_tile_witness :
    tilePlan true 100 80 416 416 = [{ x := 0, y := 0, w := 100, h := 80 }] :=
  C9_small_image_single_tile true 100 80 416 416
    (by decide) (by decide) (by decide) (by decide)

theorem qualifies_irrefl (s : Bool) (a : Det) : qualifies s a a = false := by
  unfold qualifies
  rcases h : a.tile with _ | t
  · rfl
  · simp

theorem qualifies_none_left (s : Bool) (a b : Det) (h : a.tile = none) :
    qualifies s a b = false := by
  unfold qualifies
  rw [h]

theorem qualifies_none_right (s : Bool) (a b : Det) (h : b.tile = none) :
    qualifies s a b = false := by
  unfold qualifies
  rw [h]
  rcases ha : a.tile with _ | ta <;> rfl

theorem mem_concatMap {α β : Type} (f : α → List β) (l : List α) (b : β) :
    b ∈ concatMap f l ↔ ∃ a ∈ l, b ∈ f a := by
  induction l with
  | nil => simp [concatMap]
  | cons x xs ih => simp [concatMap, ih, List.mem_append, or_and_right, exists_or]

theorem linksWith_eq_false {q : Det → Det → Bool} {d : Det} {g : List Det}
    (h : linksWith q d g = false) : ∀ e ∈ g, q d e = false ∧ q e d = false := by
  intro e he
  unfold linksWith at h
  rw [List.any_eq_false] at h
  have := h e he
  rcases Bool.or_eq_false_iff.mp (Bool.not_eq_true _ |>.mp this) with ⟨h1, h2⟩
  exact ⟨h1, h2⟩

theorem noCross_symm {q : Det → Det → Bool} (g1 g2 : List Det)
    (h : noCross q g1 g2) : noCross q g2 g1 := by
  intro a ha b hb
  exact ⟨(h b hb a ha).2, (h b hb a ha).1⟩

theorem pairwise_mem_of_symm {α : Type} {R : α → α → Prop}
    (hs : ∀ x y, R x y → R y x) {l : List α} (hp : List.Pairwise R l) :
    ∀ {x}, x ∈ l → ∀ {y}, y ∈ l → x ≠ y → R x y := by
  induction hp with
  | nil =>
    intro x hx
    cases hx
  | cons hhead _ ih =>
    intro x hx y hy hne
    rcases List.mem_cons.mp hx with rfl | hx2
    · rcases List.mem_cons.mp hy with rfl | hy2
      · exact absurd rfl hne
      · exact hhead y hy2
    · rcases List.mem_cons.mp hy with rfl | hy2
      · exact hs _ _ (hhead x hx2)
      · exact ih hx2 hy2 hne

theorem addToGroups_pairwise (q : Det → Det → Bool) (d : Det)
    {gs : List (List Det)} (hp : List.Pairwise (noCross q) gs) :
    List.Pairwise (noCross q) (addToGroups q gs d) := by
  unfold addToGroups
  rw [List.pairwise_append]
  refine ⟨List.Pairwise.sublist (List.filter_sublist gs) hp,
    List.pairwise_singleton _ _, ?_⟩
  intro g hg ng hng
  rw [List.mem_singleton] at hng
  subst hng
  intro a ha b hb
  have hgmem := List.mem_filter.mp hg
  rcases List.mem_append.mp hb with hbL | hbD
  · rcases (mem_concatMap (fun g => g) _ b).mp hbL with ⟨g2, hg2, hbg2⟩
    have hg2mem := List.mem_filter.mp hg2
    have hne : g ≠ g2 := by
      intro he
      rw [he, hg2mem.2] at hgmem
      cases hgmem.2
    exact pairwise_mem_of_symm noCross_symm hp hgmem.1 hg2mem.1 hne a ha b hbg2
  · rw [List.mem_singleton] at hbD
    subst hbD
    have hlf : linksWith q b g = false := by
      cases hlk : linksWith q b g
      · rfl
      · rw [hlk] at hgmem
        cases hgmem.2
    have hqs := linksWith_eq_false hlf a ha
    exact ⟨hqs.2, hqs.1⟩

theorem groupComponents_pairwise (q : Det → Det → Bool) (dets : List Det) :
    List.Pairwise (noCross q) (groupComponents q dets) := by
  unfold groupComponents
  have hgen : ∀ (l : List Det) (gs : List (List Det)),
      List.Pairwise (noCross q) gs →
      List.Pairwise (noCross q) (l.foldl (addToGroups q) gs) := by
    intro l
    induction l with
    | nil => intro gs h; exact h
    | cons e rest ih =>
      intro gs h
      exact ih _ (addToGroups_pairwise q e h)
  exact hgen dets [] List.Pairwise.nil

theorem foldl_merge2_tile (l : List Det) :
    ∀ a : Det, a.tile = none → (l.foldl merge2 a).tile = none := by
  induction l with
  | nil => intro a h; exact h
  | cons e rest ih =>
    intro a _
    rw [List.foldl_cons]
    exact ih (merge2 a e) rfl

theorem mergeGroup_mem_cases {g : List Det} {a : Det}
    (ha : a ∈ mergeGroup g) : (∃ x, g = [x] ∧ a = x) ∨ a.tile = none := by
  match g with
  | [] => cases ha
  | [d] =>
    left
    have hmg : mergeGroup [d] = [d] := rfl
    rw [hmg, List.mem_singleton] at ha
    exact ⟨d, rfl, ha⟩
  | d :: e :: rest =>
    right
    have hmg : mergeGroup (d :: e :: rest) = [(e :: rest).foldl merge2 d] := rfl
    rw [hmg, List.mem_singleton] at ha
    subst ha
    rw [List.foldl_cons]
    exact foldl_merge2_tile rest (merge2 d e) rfl

theorem merged_no_qualifies (s : Bool) (dets : List Det) :
    ∀ a ∈ concatMap mergeGroup (groupComponents (qualifies s) dets),
    ∀ b ∈ concatMap mergeGroup (groupComponents (qualifies s) dets),
    qualifies s a b = false := by
  intro a ha b hb
  rcases (mem_concatMap mergeGroup _ a).mp ha with ⟨g1, hg1, hag1⟩
  rcases (mem_concatMap mergeGroup _ b).mp hb with ⟨g2, hg2, hbg2⟩
  rcases mergeGroup_mem_cases hag1 with ⟨x1, hgx1, hax1⟩ | htn
  · rcases mergeGroup_mem_cases hbg2 with ⟨x2, hgx2, hbx2⟩ | htn2
    · by_cases hgg : g1 = g2
      · have hab : a = b := by
          have h12 : ([x1] : List Det) = [x2] := by rw [← hgx1, ← hgx2, hgg]
          injection h12 with h12h _
          rw [hax1, hbx2, h12h]
        rw [hab]
        exact qualifies_irrefl s b
      · have hnc := pairwise_mem_of_symm (fun x y hxy => noCross_symm x y hxy)
          (groupComponents_pairwise (qualifies s) dets) hg1 hg2 hgg
        have hax : a ∈ g1 := by
          rw [hgx1, List.mem_singleton]
          exact hax1
        have hbx : b ∈ g2 := by
          rw [hgx2, List.mem_singleton]
          exact hbx2
        exact (hnc a hax b hbx).1
    · exact qualifies_none_right s a b htn2
  · exact qualifies_none_left s a b htn

theorem addToGroups_no_links (q : Det → Det → Bool) (l : List Det) (d : Det)
    (h : ∀ e ∈ l, q d e = false ∧ q e d = false) :
    addToGroups q (l.map fun x => [x]) d = (l.map fun x => [x]) ++ [[d]] := by
  have h1 : ∀ g ∈ l.map (fun x => [x]), linksWith q d g = false := by
    intro g hg
    rcases List.mem_map.mp hg with ⟨x, hx, rfl⟩
    unfold linksWith
    rw [List.any_eq_false]
    intro e he
    rw [List.mem_singleton] at he
    subst he
    rcases h _ hx with ⟨hq1, hq2⟩
    simp [hq1, hq2]
  unfold addToGroups
  have hrest : (l.map fun x => [x]).filter (fun g => !(linksWith q d g)) =
      l.map fun x => [x] :=
    List.filter_eq_self.mpr (fun g hg => by rw [h1 g hg]; rfl)
  have hlink : (l.map fun x => [x]).filter (fun g => linksWith q d g) = [] :=
    List.filter_eq_nil_iff.mpr
      (fun g hg => by rw [h1 g hg]; exact Bool.false_ne_true)
  rw [hrest, hlink]
  rfl

theorem foldl_addToGroups_no_links (q : Det → Det → Bool) :
    ∀ (l prev : List Det),
    (∀ a ∈ prev ++ l, ∀ b ∈ prev ++ l, q a b = false) →
    l.foldl (addToGroups q) (prev.map fun x => [x]) =
      ((prev ++ l).map fun x => [x]) := by
  intro l
  induction l with
  | nil =>
    intro prev _
    simp
  | cons d rest ih =>
    intro prev h
    rw [List.foldl_cons]
    have hd : ∀ e ∈ prev, q d e = false ∧ q e d = false := by
      intro e he
      constructor
      · exact h d (by simp) e (by simp [he])
      · exact h e (by simp [he]) d (by simp)
    rw [addToGroups_no_links q prev d hd]
    have hmap : ((prev.map fun x => [x]) ++ [[d]]) =
        ((prev ++ [d]).map fun x => [x]) := by
      simp
    rw [hmap]
    have h2 : ∀ a ∈ (prev ++ [d]) ++ rest, ∀ b ∈ (prev ++ [d]) ++ rest,
        q a b = false := by
      intro a ha b hb
      have ha2 : a ∈ prev ++ d :: rest := by
        simp only [List.mem_append, List.mem_cons, List.mem_singleton] at ha ⊢
        tauto
      have hb2 : b ∈ prev ++ d :: rest := by
        simp only [List.mem_append, List.mem_cons, List.mem_singleton] at hb ⊢
        tauto
      exact h a ha2 b hb2
    rw [ih (prev ++ [d]) h2]
    simp

theorem concatMap_mergeGroup_singletons (l : List Det) :
    concatMap mergeGroup (l.map fun x => [x]) = l := by
  induction l with
  | nil => rfl
  | cons d rest ih =>
    show mergeGroup [d] ++ concatMap mergeGroup (rest.map fun x => [x]) =
      d :: rest
    rw [ih]
    rfl

/-- Claim C4: the merge phase of the Merge/Snap Engine is idempotent:
running merge on the output of merge yields the same PredictionSet as
running merge once, for every input and for every setting of the
combine_tile_predictions and only_combine_similar_predictions options.
The key is that merged detections have their originating-tile marker
cleared, so they never qualify for a further merge, and surviving
singletons lie in distinct components and never qualify with each
other. -/
theorem C4_merge_idempotent (combine similarOnly : Bool) (dets : List Det) :
    mergeAll combine similarOnly (mergeAll combine similarOnly dets) =
    mergeAll combine similarOnly dets := by
  cases combine
  · rfl
  · have hno := merged_no_qualifies similarOnly dets
    have hgc : groupComponents (qualifies similarOnly)
        (concatMap mergeGroup (groupComponents (qualifies similarOnly) dets)) =
        (concatMap mergeGroup
          (groupComponents (qualifies similarOnly) dets)).map (fun x => [x]) := by
      have hf := foldl_addToGroups_no_links (qualifies similarOnly)
        (concatMap mergeGroup (groupComponents (qualifies similarOnly) dets)) []
        (by simpa using hno)
      simpa [groupComponents] using hf
    have hm : mergeAll true similarOnly dets =
        concatMap mergeGroup (groupComponents (qualifies similarOnly) dets) := rfl
    rw [hm]
    have hm2 : mergeAll true similarOnly
        (concatMap mergeGroup (groupComponents (qualifies similarOnly) dets)) =
        concatMap mergeGroup (groupComponents (qualifies similarOnly)
          (concatMap mergeGroup (groupComponents (qualifies similarOnly) dets))) :=
      rfl
    rw [hm2, hgc, concatMap_mergeGroup_singletons]
